import Mathlib

/-!
Verification of the LLM invocation layer of the Jobs_Applier_AI_Agent repository:
the response normalizer (`LoggerChatModel.parse_llmresult`), the call logger
(`LLMLogger.log_request`), the retrying invoker (`LoggerChatModel.__call__`, both
the `src/libs/llm_manager.py` and the `src/libs/resume_and_cover_builder/utils.py`
variants), and the local backend adapter (`DeepseekModel.invoke` / `AIAdapter`).

Python dictionaries that the code reads through `.get(key, default)` are embedded
as structures of `Option` fields (`none` = key absent); an attribute that may be
missing from an object is likewise an `Option` field on the embedded object, with
`none` meaning that attribute access raises `AttributeError`.  Raising code is
embedded as `Except Unit` results.  Wall-clock timestamps and log file I/O are
outside the model: a written log line is represented by the `LogEntry` record that
the code serialises.  Python `float` arithmetic on the price constants is embedded
as exact rational arithmetic; the facts proved about it (the cost formula, and the
cost being zero exactly when both token counts are zero) are insensitive to the
difference between the exact decimals and their IEEE-754 roundings, which are
positive reals of the same magnitude.
-/

instance {ε α : Type _} [DecidableEq ε] [DecidableEq α] : DecidableEq (Except ε α) := fun x y =>
  match x, y with
  | .error a, .error b =>
    if h : a = b then isTrue (congrArg Except.error h)
    else isFalse (fun hh => h (by injection hh))
  | .ok a, .ok b =>
    if h : a = b then isTrue (congrArg Except.ok h)
    else isFalse (fun hh => h (by injection hh))
  | .error _, .ok _ => isFalse (fun hh => by injection hh)
  | .ok _, .error _ => isFalse (fun hh => by injection hh)

/-- A chat message record (`Dict[str, str]`): only the `content` key is ever read
by this layer, via `m.get("content", "")` (absent key = `none`). -/
structure Msg where
  content : Option String
deriving DecidableEq

/-- A `response_metadata` dictionary as observed by the code: each field is the
optionally-present value of the corresponding key; `logprobs`, when present, holds
either `null` (`some none`) or a value.  `extra_keys` records whether the dict has
further keys (they affect only Python truthiness, never the extracted values). -/
structure RespMetaDict where
  model_name : Option String
  system_fingerprint : Option String
  finish_reason : Option String
  logprobs : Option (Option String)
  extra_keys : Bool
deriving DecidableEq

/-- Python truthiness of the metadata dict: nonempty. -/
def RespMetaDict.isTruthy (d : RespMetaDict) : Bool :=
  d.model_name.isSome || d.system_fingerprint.isSome || d.finish_reason.isSome ||
    d.logprobs.isSome || d.extra_keys

/-- A `usage_metadata` dictionary: optionally-present integer token counts. -/
structure UsageDict where
  input_tokens : Option Int
  output_tokens : Option Int
  total_tokens : Option Int
  extra_keys : Bool
deriving DecidableEq

/-- Python truthiness of the usage dict: nonempty. -/
def UsageDict.isTruthy (u : UsageDict) : Bool :=
  u.input_tokens.isSome || u.output_tokens.isSome || u.total_tokens.isSome || u.extra_keys

/-- A raw backend reply.  `bare s` is a plain Python string (on which `.content`
raises `AttributeError`).  `obj` is a message-like object: `py_str` is its `str()`
form, `content` is its `content` attribute (`none` = access raises), and the three
metadata fields are its optionally-present attributes (for `id`, the attribute may
itself hold Python `None`, hence the nested `Option`). -/
inductive RawReply
  | bare (s : String)
  | obj (py_str : String) (content : Option String)
        (response_metadata : Option RespMetaDict)
        (id : Option (Option String))
        (usage_metadata : Option UsageDict)
deriving DecidableEq

/-- Python `str()` of a raw reply. -/
def RawReply.pyStr : RawReply → String
  | .bare s => s
  | .obj s _ _ _ _ => s

/-- The `response_metadata` group of the canonical ParsedReply: every field present. -/
structure ParsedMeta where
  model_name : String
  system_fingerprint : String
  finish_reason : String
  logprobs : Option String
deriving DecidableEq

/-- The `usage_metadata` group of the canonical ParsedReply: every field present. -/
structure ParsedUsage where
  input_tokens : Int
  output_tokens : Int
  total_tokens : Int
deriving DecidableEq

/-- The canonical reply record built by `parse_llmresult`
(`id` is `Option` because `llmresult.id` may hold Python `None`). -/
structure ParsedReply where
  content : String
  response_metadata : ParsedMeta
  id : Option String
  usage_metadata : ParsedUsage
deriving DecidableEq

/-- `llm_manager.py:418`: the default metadata dict for local models, with all
four keys present. -/
def default_metadata : RespMetaDict :=
  ⟨some "phi3:latest", some "", some "stop", some none, false⟩

/-- `llm_manager.py:426`: the default usage dict for local models. -/
def default_usage : UsageDict :=
  ⟨some 0, some 0, some 0, false⟩

/-- Whether the `try` block of `llm_manager.py`'s `parse_llmresult` raises:
its only raising step is `content = llmresult.content` (line 415), which raises
exactly when the reply is a bare string or lacks the `content` attribute. -/
def extraction_raises : RawReply → Bool
  | .bare _ => true
  | .obj _ c _ _ _ => c.isNone

/-- `llm_manager.py:469-483`: the record returned by the `except` branch of
`parse_llmresult`. -/
def parse_error_default (llmresult : RawReply) : ParsedReply :=
  { content := llmresult.pyStr
    response_metadata :=
      { model_name := "phi3:latest"
        system_fingerprint := ""
        finish_reason := "stop"
        logprobs := none }
    id := some "error_parsing_response"
    usage_metadata := { input_tokens := 0, output_tokens := 0, total_tokens := 0 } }

/-- `LoggerChatModel.parse_llmresult`, `llm_manager.py:410-483`.  Group level:
`response_metadata` / `usage_metadata` are used only if the attribute exists and
is truthy, else the whole default dict is substituted; `id` needs only `hasattr`.
Key level: each field is read with `.get(key, default)`.  Any extraction error
falls into the `except` branch (`parse_error_default`). -/
def parse_llmresult (llmresult : RawReply) : ParsedReply :=
  match llmresult with
  | .bare s => parse_error_default (.bare s)
  | .obj s none rm i um => parse_error_default (.obj s none rm i um)
  | .obj _ (some content) rm i um =>
    let response_metadata : RespMetaDict :=
      match rm with
      | some d => if d.isTruthy then d else default_metadata
      | none => default_metadata
    let id_ : Option String :=
      match i with
      | some v => v
      | none => some "local_model_response"
    let usage_metadata : UsageDict :=
      match um with
      | some d => if d.isTruthy then d else default_usage
      | none => default_usage
    { content := content
      response_metadata :=
        { model_name := response_metadata.model_name.getD "phi3:latest"
          system_fingerprint := response_metadata.system_fingerprint.getD ""
          finish_reason := response_metadata.finish_reason.getD "stop"
          logprobs := response_metadata.logprobs.getD none }
      id := id_
      usage_metadata :=
        { input_tokens := usage_metadata.input_tokens.getD 0
          output_tokens := usage_metadata.output_tokens.getD 0
          total_tokens := usage_metadata.total_tokens.getD 0 } }

/-- The `prompts` value handed to `LLMLogger.log_request`, classified by the
shape dispatch the code performs (`llm_manager.py:271-298`, `utils.py:28-40`):
a `StringPromptValue` (has `.text`); a mapping, whose `messages` attribute is
present only for dict subclasses that define one (`none` for a plain dict); a
plain Python list of message dicts (no `messages` attribute); or any other
object, e.g. a `ChatPromptValue`, whose optionally-present `messages` attribute
holds records read through `.content`. -/
inductive PromptsVal
  | spv (text : String)
  | pyDict (messages : Option (List Msg))
  | pyList (items : List Msg)
  | obj (messages : Option (List Msg))
deriving DecidableEq

/-- The `prompts` field of a written log entry: either the text of a
`StringPromptValue` or the `prompt_1, prompt_2, …` mapping. -/
inductive LoggedPrompts
  | text (s : String)
  | mapping (m : List (String × String))
deriving DecidableEq

/-- The comprehension `{f"prompt_{i+1}": prompt.content for i, prompt in
enumerate(prompts.messages)}` (`llm_manager.py:278-281`): `i` is the 1-based key
index; a record whose `content` attribute is missing makes it raise. -/
def prompt_mapping_from (i : Nat) : List Msg → Except Unit (List (String × String))
  | [] => .ok []
  | m :: ms =>
    match m.content with
    | none => .error ()
    | some c =>
      match prompt_mapping_from (i + 1) ms with
      | .error e => .error e
      | .ok rest => .ok (("prompt_" ++ toString i, c) :: rest)

/-- The prompt-shape normalization at the top of `log_request`
(`llm_manager.py:271-298`; `utils.py:28-40` is identical up to the re-raise
logging): a `StringPromptValue` becomes its `.text`; every other shape is put
through the `prompts.messages` comprehension, which raises (`.error`) when the
object has no `messages` attribute — in particular for a plain dict or a plain
list — or when a record lacks `content`. -/
def normalizePrompts : PromptsVal → Except Unit LoggedPrompts
  | .spv t => .ok (.text t)
  | .pyDict (some ms) =>
    match prompt_mapping_from 1 ms with
    | .error e => .error e
    | .ok l => .ok (.mapping l)
  | .pyDict none => .error ()
  | .pyList _ => .error ()
  | .obj (some ms) =>
    match prompt_mapping_from 1 ms with
    | .error e => .error e
    | .ok l => .ok (.mapping l)
  | .obj none => .error ()

/-- `llm_manager.py:327` and `utils.py:52`: `prompt_price_per_token = 0.00000015`,
a fixed constant, identical for every backend. -/
def prompt_price_per_token : ℚ := 15 / 100000000

/-- `llm_manager.py:328` and `utils.py:53`: `completion_price_per_token = 0.0000006`. -/
def completion_price_per_token : ℚ := 6 / 10000000

/-- A written log line (`llm_manager.py:338-347`, `utils.py:61-70`), minus the
wall-clock `time` field, which is outside the model. -/
structure LogEntry where
  model : String
  prompts : LoggedPrompts
  replies : String
  total_tokens : Int
  input_tokens : Int
  output_tokens : Int
  total_cost : ℚ
deriving DecidableEq

/-- `LLMLogger.log_request` (`llm_manager.py:258-362`; `utils.py:25-75` is the
same computation without the catch-and-re-raise wrappers): normalize the prompts
shape (raising propagates), extract the token counts and model name from the
parsed reply (total on a `ParsedReply`, whose fields are always present), compute
`total_cost = input_tokens * prompt_price + output_tokens * completion_price`,
and append the entry. -/
def log_request (prompts : PromptsVal) (parsed_reply : ParsedReply) : Except Unit LogEntry :=
  match normalizePrompts prompts with
  | .error e => .error e
  | .ok converted =>
    let output_tokens := parsed_reply.usage_metadata.output_tokens
    let input_tokens := parsed_reply.usage_metadata.input_tokens
    let total_tokens := parsed_reply.usage_metadata.total_tokens
    let model_name := parsed_reply.response_metadata.model_name
    let total_cost : ℚ :=
      input_tokens * prompt_price_per_token + output_tokens * completion_price_per_token
    .ok
      { model := model_name
        prompts := converted
        replies := parsed_reply.content
        total_tokens := total_tokens
        input_tokens := input_tokens
        output_tokens := output_tokens
        total_cost := total_cost }

/-- A value the invoker can hand back to its caller: in Python both the raw
backend message object and the normalized dict are possible return values of a
dynamically-typed function, so the result type is their sum. -/
inductive Returned
  | raw (r : RawReply)
  | parsed (p : ParsedReply)
deriving DecidableEq

/-- How a call to the retrying invoker ends: a returned value, or a raised
exception carrying its message. -/
inductive CallOutcome
  | returned (v : Returned)
  | raised (msg : String)
deriving DecidableEq

/-- Observable behaviour of one invoker call: number of backend attempts made,
the sleeps performed between attempts (in order), the outcome, and the
parsed replies successfully handed to the call logger. -/
structure CallResult where
  attempts : Nat
  sleeps : List Nat
  outcome : CallOutcome
  logged : List ParsedReply
deriving DecidableEq

/-- `src/utils/constants.py:85`. -/
def MAX_RETRIES : Nat := 15

/-- `src/utils/constants.py:84`. -/
def DEFAULT_RETRY_DELAY : Nat := 30

/-- `llm_manager.py:408`: the message of the terminal exhaustion exception. -/
def exhaust_message : String :=
  "Failed to get a response after " ++ toString MAX_RETRIES ++ " attempts"

/-- The `for attempt in range(MAX_RETRIES)` loop of `LoggerChatModel.__call__`
(`llm_manager.py:370-408`), with the remaining iteration budget as fuel.  Each
iteration invokes the backend (the `isinstance(self.llm.model,
DeepseekModel.__class__)` reformatting branch at lines 379-386 is dead — see
`deepseek_class_check` — so the backend always receives the original messages,
abstracted here as `llm attempt`); on success it parses the reply, logs it, and
returns the raw reply; any exception — from the backend or from `log_request` —
is caught, the current `retry_delay` is slept, and the delay doubles.  Running
out of iterations raises the exhaustion exception. -/
def call_loop (llm : Nat → Except Unit RawReply) (messages : PromptsVal) :
    Nat → Nat → Nat → CallResult
  | 0, _, _ => ⟨0, [], .raised exhaust_message, []⟩
  | fuel + 1, attempt, retry_delay =>
    match llm attempt with
    | .ok reply =>
      let parsed_reply := parse_llmresult reply
      match log_request messages parsed_reply with
      | .ok _ => ⟨1, [], .returned (.raw reply), [parsed_reply]⟩
      | .error _ =>
        let rest := call_loop llm messages fuel (attempt + 1) (retry_delay * 2)
        ⟨rest.attempts + 1, retry_delay :: rest.sleeps, rest.outcome, rest.logged⟩
    | .error _ =>
      let rest := call_loop llm messages fuel (attempt + 1) (retry_delay * 2)
      ⟨rest.attempts + 1, retry_delay :: rest.sleeps, rest.outcome, rest.logged⟩

/-- `LoggerChatModel.__call__` of `llm_manager.py`: run the loop with the full
retry budget, attempt counter `0`, and the initial delay. -/
def logger_chat_model_call (llm : Nat → Except Unit RawReply) (messages : PromptsVal) :
    CallResult :=
  call_loop llm messages MAX_RETRIES 0 DEFAULT_RETRY_DELAY

/-- `llm_manager.py:379`: `isinstance(self.llm.model, DeepseekModel.__class__)`.
`DeepseekModel.__class__` is the metaclass `type`, so this tests whether
`self.llm.model` is itself a class; `self.llm` is the `AIAdapter`, whose `model`
attribute is always a `DeepseekModel` *instance* (`llm_manager.py:231,237`), so
the test is `False` and the flattening branch at lines 380-386 is dead code. -/
def deepseek_class_check : Bool := false

/-- `"\n\n".join(m.get("content", "") for m in messages)`: the blank-line
flattening written at `llm_manager.py:382` (dead branch) and executed at
`utils.py:112` (fallback path). -/
def flatten_messages (messages : List Msg) : String :=
  String.intercalate "\n\n" (messages.map (fun m => m.content.getD ""))

/-- What `__call__` passes to `self.llm.invoke` (`llm_manager.py:378-388`):
the blank-line-flattened text if `deepseek_class_check` held, else the original
structured message list. -/
def llm_manager_prompt (messages : List Msg) : Sum (List Msg) String :=
  if deepseek_class_check then Sum.inr (flatten_messages messages) else Sum.inl messages

/-- The prompt-to-text step of `DeepseekModel.invoke` (`llm_manager.py:201-205`):
a list of messages is joined with a single `"\n"`, via `m.get("content", "")`;
a string passes through. -/
def deepseek_flatten : Sum (List Msg) String → String
  | Sum.inl ms => String.intercalate "\n" (ms.map (fun m => m.content.getD ""))
  | Sum.inr s => s

/-- The `AIMessage` built by `DeepseekModel.invoke` (`llm_manager.py:211-216`):
content from the model response, `response_metadata` with exactly the
`model_name` and `finish_reason` keys, id `"deepseek_response"`, and a
`usage_metadata` dict with all three token counts zero. -/
def deepseek_message (response : String) : RawReply :=
  .obj response (some response)
    (some ⟨some "deepseek-r1", none, some "stop", none, false⟩)
    (some (some "deepseek_response"))
    (some ⟨some 0, some 0, some 0, false⟩)

/-- `DeepseekModel.invoke` (`llm_manager.py:198-222`): flatten the prompt, call
the underlying Ollama model (which may raise; the `except` branch re-raises),
and wrap a successful response in the compatibility `AIMessage`. -/
def deepseek_invoke (ollama_model : String → Except Unit String)
    (prompt : Sum (List Msg) String) : Except Unit RawReply :=
  match ollama_model (deepseek_flatten prompt) with
  | .error e => .error e
  | .ok response => .ok (deepseek_message response)

/-- The text prompt that reaches the local model on one attempt of the deployed
pipeline: `__call__`'s (dead) reformatting step composed with
`DeepseekModel.invoke`'s own flattening. -/
def prompt_reaching_model (messages : List Msg) : String :=
  deepseek_flatten (llm_manager_prompt messages)

/-- The exception classes distinguished by `utils.py:131-174`: an
`HTTPStatusError` with its status code; an `openai.RateLimitError`, carrying the
optional `retry after N` seconds its message parses to; a `ValueError`, tagged
with whether its message contains `"API key"` or `"authentication"`; or any
other exception. -/
inductive UtilsError
  | httpStatus (code : Nat)
  | openaiRateLimit (retryAfter : Option Nat)
  | valueErr (authLike : Bool)
  | otherExc
deriving DecidableEq

/-- `LoggerChatModel.parse_llmresult` of `utils.py:195-217`: no `try` wrapper, so
a reply lacking any of the four attributes makes it raise; present groups are
read with `.get` per key, with defaults `""`, `""`, `""`, `None`, `0`, `0`, `0`. -/
def utils_parse_llmresult : RawReply → Except Unit ParsedReply
  | .bare _ => .error ()
  | .obj _ none _ _ _ => .error ()
  | .obj _ (some content) rm i um =>
    match rm, i, um with
    | some response_metadata, some id_, some usage_metadata =>
      .ok
        { content := content
          response_metadata :=
            { model_name := response_metadata.model_name.getD ""
              system_fingerprint := response_metadata.system_fingerprint.getD ""
              finish_reason := response_metadata.finish_reason.getD ""
              logprobs := response_metadata.logprobs.getD none }
          id := id_
          usage_metadata :=
            { input_tokens := usage_metadata.input_tokens.getD 0
              output_tokens := usage_metadata.output_tokens.getD 0
              total_tokens := usage_metadata.total_tokens.getD 0 } }
    | _, _, _ => .error ()

/-- The compatibility `AIMessage` built on the fallback path (`utils.py:119-122`):
content from the fallback response, metadata with exactly `model_name` and
`finish_reason`, id `"fallback_response"`, zero usage. -/
def fallback_message (response : String) : RawReply :=
  .obj response (some response)
    (some ⟨some "deepseek-r1", none, some "stop", none, false⟩)
    (some (some "fallback_response"))
    (some ⟨some 0, some 0, some 0, false⟩)

/-- `utils.py:99`: the local `max_retries` of the builder variant. -/
def utils_max_retries : Nat := 15

/-- `utils.py:100`: the local initial `retry_delay` of the builder variant. -/
def utils_initial_delay : Nat := 10

/-- `utils.py:139,163`: the terminal error raised when fallback construction fails. -/
def ctor_fail_message : String :=
  "Invalid API key and fallback model initialization failed."

/-- `utils.py:177`: the terminal exhaustion error of the builder variant. -/
def utils_exhaust_message : String :=
  "Failed to get a response from the model after multiple attempts."

/-- `parse_wait_time_from_error_message` (`utils.py:179-193`): the regex match
`retry after (\d+)` is modelled as the already-extracted optional number;
default 30 seconds. -/
def parse_wait_time (retryAfter : Option Nat) : Nat := retryAfter.getD 30

/-- The `messages` argument of the builder-variant `__call__`: either the
annotated plain list of message dicts, or some other object such as a
`ChatPromptValue` (with an optionally-present `messages` attribute and its
`str()` form). -/
inductive UtilsMsgs
  | list (ms : List Msg)
  | objVal (messages : Option (List Msg)) (py_str : String)
deriving DecidableEq

/-- `utils.py:110-114`: the fallback-path prompt text — `"\n\n"`-joined contents
for a list, `str(messages)` otherwise. -/
def UtilsMsgs.flatten : UtilsMsgs → String
  | .list ms => flatten_messages ms
  | .objVal _ s => s

/-- The same `messages` value as seen by `log_request`'s shape dispatch: a plain
list has no `messages` attribute. -/
def UtilsMsgs.toPrompts : UtilsMsgs → PromptsVal
  | .list ms => .pyList ms
  | .objVal ms _ => .obj ms

/-- Observable behaviour of one call to the builder-variant invoker:
`ctor_calls` counts invocations of the fallback constructor
(`Ollama(model="deepseek-r1:32b")` inside `_initialize_fallback`). -/
structure UtilsResult where
  attempts : Nat
  sleeps : List Nat
  outcome : CallOutcome
  ctor_calls : Nat
  logged : List ParsedReply
deriving DecidableEq

/-- The retry loop of `LoggerChatModel.__call__` in `utils.py:98-177`, fuelled by
the remaining iterations.  Per iteration: if an authentication error was seen and
the fallback exists, flatten the messages with `"\n\n"`, call the fallback (it
may raise), and return the compatibility message directly — without parsing or
logging it.  Otherwise invoke the primary backend, parse (`utils_parse_llmresult`
raising becomes a generic exception) and log (likewise) and return the raw reply.
Exceptions: a 401 `HTTPStatusError` or an auth-like `ValueError` sets the
auth flag and, when no fallback exists yet, runs the constructor — raising the
terminal `ctor_fail_message` if it fails — then retries at once without sleeping;
an `openai.RateLimitError` sleeps the parsed wait time without touching
`retry_delay`; every other exception sleeps `retry_delay` and doubles it.
Running out of iterations raises the exhaustion error. -/
def utils_call_loop (primary : Nat → Except UtilsError RawReply) (ctor_ok : Bool)
    (fallback : Nat → String → Except UtilsError String) (messages : UtilsMsgs) :
    Nat → Nat → Bool → Bool → Nat → UtilsResult
  | 0, _, _, _, _ => ⟨0, [], .raised utils_exhaust_message, 0, []⟩
  | fuel + 1, attempt, fallback_built, auth_error, retry_delay =>
    let tryStep : Except UtilsError (Returned × List ParsedReply) :=
      if auth_error && fallback_built then
        match fallback attempt messages.flatten with
        | .error e => .error e
        | .ok s => .ok (.raw (fallback_message s), [])
      else
        match primary attempt with
        | .error e => .error e
        | .ok reply =>
          match utils_parse_llmresult reply with
          | .error _ => .error .otherExc
          | .ok parsed =>
            match log_request messages.toPrompts parsed with
            | .error _ => .error .otherExc
            | .ok _ => .ok (.raw reply, [parsed])
    match tryStep with
    | .ok (v, lg) => ⟨1, [], .returned v, 0, lg⟩
    | .error e =>
      if e = UtilsError.httpStatus 401 ∨ e = UtilsError.valueErr true then
        if fallback_built then
          let rest :=
            utils_call_loop primary ctor_ok fallback messages fuel (attempt + 1)
              true true retry_delay
          ⟨rest.attempts + 1, rest.sleeps, rest.outcome, rest.ctor_calls, rest.logged⟩
        else if ctor_ok then
          let rest :=
            utils_call_loop primary ctor_ok fallback messages fuel (attempt + 1)
              true true retry_delay
          ⟨rest.attempts + 1, rest.sleeps, rest.outcome, rest.ctor_calls + 1, rest.logged⟩
        else ⟨1, [], .raised ctor_fail_message, 1, []⟩
      else
        let sleep_time :=
          match e with
          | .openaiRateLimit w => parse_wait_time w
          | _ => retry_delay
        let new_delay :=
          match e with
          | .openaiRateLimit _ => retry_delay
          | _ => retry_delay * 2
        let rest :=
          utils_call_loop primary ctor_ok fallback messages fuel (attempt + 1)
            fallback_built auth_error new_delay
        ⟨rest.attempts + 1, sleep_time :: rest.sleeps, rest.outcome, rest.ctor_calls,
          rest.logged⟩

/-- `LoggerChatModel.__call__` of `utils.py`: full budget, attempt `0`, no
fallback yet, no auth error seen, initial delay 10. -/
def utils_call (primary : Nat → Except UtilsError RawReply) (ctor_ok : Bool)
    (fallback : Nat → String → Except UtilsError String) (messages : UtilsMsgs) :
    UtilsResult :=
  utils_call_loop primary ctor_ok fallback messages utils_max_retries 0 false false
    utils_initial_delay

/-! ### Helper lemmas -/

lemma sleeps_geom (d j : Nat) :
    (List.range (j + 1)).map (fun k => d * 2 ^ k) =
      d :: (List.range j).map (fun k => d * 2 * 2 ^ k) := by
  rw [List.range_succ_eq_map, List.map_cons, List.map_map]
  congr 1
  · simp
  · congr 1
    funext k
    simp only [Function.comp_apply, pow_succ]
    ring

lemma log_request_of_normalize (messages : PromptsVal) (lp : LoggedPrompts)
    (p : ParsedReply) (hlp : normalizePrompts messages = .ok lp) :
    log_request messages p =
      .ok ⟨p.response_metadata.model_name, lp, p.content,
        p.usage_metadata.total_tokens, p.usage_metadata.input_tokens,
        p.usage_metadata.output_tokens,
        p.usage_metadata.input_tokens * prompt_price_per_token +
          p.usage_metadata.output_tokens * completion_price_per_token⟩ := by
  simp [log_request, hlp]

lemma call_loop_success (llm : Nat → Except Unit RawReply) (messages : PromptsVal)
    (lp : LoggedPrompts) (r : RawReply)
    (hlp : normalizePrompts messages = .ok lp) :
    ∀ j fuel attempt delay : Nat, j < fuel →
      (∀ k, k < j → llm (attempt + k) = .error ()) →
      llm (attempt + j) = .ok r →
      call_loop llm messages fuel attempt delay =
        ⟨j + 1, (List.range j).map (fun k => delay * 2 ^ k),
          .returned (.raw r), [parse_llmresult r]⟩ := by
  intro j
  induction j with
  | zero =>
    intro fuel attempt delay hj _ hok
    cases fuel with
    | zero => omega
    | succ f =>
      have hok0 : llm attempt = .ok r := by simpa using hok
      simp [call_loop, hok0, log_request, hlp]
  | succ j ih =>
    intro fuel attempt delay hj hfail hok
    cases fuel with
    | zero => omega
    | succ f =>
      have h0 : llm attempt = .error () := by simpa using hfail 0 (Nat.succ_pos j)
      have hrest := ih f (attempt + 1) (delay * 2) (by omega)
        (fun k hk => by
          rw [show attempt + 1 + k = attempt + (k + 1) from by omega]
          exact hfail (k + 1) (by omega))
        (by
          rw [show attempt + 1 + j = attempt + (j + 1) from by omega]
          exact hok)
      simp [call_loop, h0, hrest, sleeps_geom]

lemma call_loop_all_fail (llm : Nat → Except Unit RawReply) (messages : PromptsVal)
    (hfail : ∀ k, llm k = .error ()) :
    ∀ fuel attempt delay : Nat,
      call_loop llm messages fuel attempt delay =
        ⟨fuel, (List.range fuel).map (fun k => delay * 2 ^ k),
          .raised exhaust_message, []⟩ := by
  intro fuel
  induction fuel with
  | zero => intro attempt delay; simp [call_loop]
  | succ f ih =>
    intro attempt delay
    simp [call_loop, hfail attempt, ih (attempt + 1) (delay * 2), sleeps_geom]

/-! ### Claims -/

/-- C1: the response normalizer is total (its Lean embedding returns a
`ParsedReply` for every `RawReply`, mirroring the all-enclosing `try/except` of
`llm_manager.py:410-483`), and on any extraction error — a bare string, or any
object whose `content` attribute access raises — it returns the minimal default
record: `content = str(raw_reply)`, id `"error_parsing_response"`, the default
model name, empty fingerprint, `"stop"` finish reason, null logprobs, and all
three token counts zero. -/
theorem C1_normalizer_error_default (r : RawReply) (h : extraction_raises r = true) :
    parse_llmresult r =
      ⟨r.pyStr, ⟨"phi3:latest", "", "stop", none⟩, some "error_parsing_response",
        ⟨0, 0, 0⟩⟩ := by
  cases r with
  | bare s => rfl
  | obj s c rm i um =>
    cases c with
    | none => rfl
    | some c => simp [extraction_raises] at h

/-- Witness for C1 at the bare string `"oops"`. -/
theorem C1_witness :
    extraction_raises (RawReply.bare "oops") = true ∧
      parse_llmresult (RawReply.bare "oops") =
        ⟨"oops", ⟨"phi3:latest", "", "stop", none⟩, some "error_parsing_response",
          ⟨0, 0, 0⟩⟩ :=
  ⟨rfl, C1_normalizer_error_default (RawReply.bare "oops") rfl⟩

/-- C6: two-level defaulting of `parse_llmresult` (`llm_manager.py:432-462`) on
any reply whose `content` extraction succeeds: a present-and-truthy
`response_metadata` (resp. `usage_metadata`) group keeps each present key's
value and substitutes the documented per-key default for each missing key; an
absent or falsy group is replaced by the whole default group.  Every field of
the resulting `ParsedReply` is present by construction of the type. -/
theorem C6_two_level_defaulting :
    (∀ (s c : String) (d : RespMetaDict) (i : Option (Option String))
        (u : Option UsageDict), d.isTruthy = true →
        (parse_llmresult (.obj s (some c) (some d) i u)).response_metadata =
          ⟨d.model_name.getD "phi3:latest", d.system_fingerprint.getD "",
            d.finish_reason.getD "stop", d.logprobs.getD none⟩) ∧
    (∀ (s c : String) (rm : Option RespMetaDict) (i : Option (Option String))
        (g : UsageDict), g.isTruthy = true →
        (parse_llmresult (.obj s (some c) rm i (some g))).usage_metadata =
          ⟨g.input_tokens.getD 0, g.output_tokens.getD 0, g.total_tokens.getD 0⟩) ∧
    (∀ (s c : String) (i : Option (Option String)) (u : Option UsageDict),
        (parse_llmresult (.obj s (some c) none i u)).response_metadata =
          ⟨"phi3:latest", "", "stop", none⟩) ∧
    (∀ (s c : String) (d : RespMetaDict) (i : Option (Option String))
        (u : Option UsageDict), d.isTruthy = false →
        (parse_llmresult (.obj s (some c) (some d) i u)).response_metadata =
          ⟨"phi3:latest", "", "stop", none⟩) ∧
    (∀ (s c : String) (rm : Option RespMetaDict) (i : Option (Option String)),
        (parse_llmresult (.obj s (some c) rm i none)).usage_metadata = ⟨0, 0, 0⟩) ∧
    (∀ (s c : String) (rm : Option RespMetaDict) (i : Option (Option String))
        (g : UsageDict), g.isTruthy = false →
        (parse_llmresult (.obj s (some c) rm i (some g))).usage_metadata =
          ⟨0, 0, 0⟩) := by
  refine ⟨?_, ?_, ?_, ?_, ?_, ?_⟩
  · intro s c d i u h
    simp [parse_llmresult, h]
  · intro s c rm i g h
    simp [parse_llmresult, h]
  · intro s c i u
    simp [parse_llmresult, default_metadata]
  · intro s c d i u h
    simp [parse_llmresult, h, default_metadata]
  · intro s c rm i
    simp [parse_llmresult, default_usage]
  · intro s c rm i g h
    simp [parse_llmresult, h, default_usage]

/-- Witness for C6: a metadata dict with only `model_name` present keeps it and
defaults the rest; a present-but-empty usage dict is falsy and yields the whole
default usage group. -/
theorem C6_witness :
    RespMetaDict.isTruthy ⟨some "m", none, none, none, false⟩ = true ∧
      (parse_llmresult
          (.obj "x" (some "c") (some ⟨some "m", none, none, none, false⟩) none
            none)).response_metadata = ⟨"m", "", "stop", none⟩ ∧
    UsageDict.isTruthy ⟨none, none, none, false⟩ = false ∧
      (parse_llmresult
          (.obj "x" (some "c") none none
            (some ⟨none, none, none, false⟩))).usage_metadata = ⟨0, 0, 0⟩ := by
  refine ⟨rfl, ?_, rfl, ?_⟩
  · exact C6_two_level_defaulting.1 "x" "c" ⟨some "m", none, none, none, false⟩ none none rfl
  · exact C6_two_level_defaulting.2.2.2.2.2 "x" "c" none none ⟨none, none, none, false⟩ rfl

/-- C2: for every `N` with `1 ≤ N ≤ MAX_RETRIES`, if the backend raises on each
of the first `N − 1` invocations and succeeds on the `N`-th (and the prompts
value is log-convertible, so the success path completes), the invoker returns
the successful reply after exactly `N` backend attempts, and the delay slept
between attempt `k` and `k+1` is `DEFAULT_RETRY_DELAY * 2^(k-1)` — the list of
sleeps is `[30·2^0, …, 30·2^(N-2)]`, doubling without cap below the ceiling. -/
theorem C2_retry_backoff (N : Nat) (llm : Nat → Except Unit RawReply)
    (messages : PromptsVal) (lp : LoggedPrompts) (r : RawReply)
    (h1 : 1 ≤ N) (h2 : N ≤ MAX_RETRIES)
    (hfail : ∀ k, k < N - 1 → llm k = .error ())
    (hok : llm (N - 1) = .ok r)
    (hlp : normalizePrompts messages = .ok lp) :
    logger_chat_model_call llm messages =
      ⟨N, (List.range (N - 1)).map (fun k => DEFAULT_RETRY_DELAY * 2 ^ k),
        .returned (.raw r), [parse_llmresult r]⟩ ∧
    DEFAULT_RETRY_DELAY = 30 ∧ MAX_RETRIES = 15 := by
  refine ⟨?_, rfl, rfl⟩
  have h := call_loop_success llm messages lp r hlp (N - 1) MAX_RETRIES 0
    DEFAULT_RETRY_DELAY (by simp only [MAX_RETRIES] at h2 ⊢; omega)
    (fun k hk => by simpa using hfail k hk)
    (by simpa using hok)
  have hN : N - 1 + 1 = N := by omega
  rw [hN] at h
  exact h

/-- Witness for C2 at `N = 2`: one failure, then success; one sleep of 30. -/
theorem C2_witness :
    logger_chat_model_call
        (fun k => if k = 0 then .error () else .ok (.bare "r")) (.spv "q") =
      ⟨2, [30], .returned (.raw (.bare "r")), [parse_llmresult (.bare "r")]⟩ := by
  have h := C2_retry_backoff 2
    (fun k => if k = 0 then .error () else .ok (.bare "r")) (.spv "q")
    (.text "q") (.bare "r") (by omega) (by decide)
    (fun k hk => by
      have hk0 : k = 0 := by omega
      subst hk0
      rfl)
    rfl rfl
  rw [h.1]
  decide

/-- C3: with a backend that raises on every invocation, the invoker performs
exactly `MAX_RETRIES = 15` backend attempts, hands nothing to the logger and
returns no reply, and then raises a single terminal exception whose message
names the number of attempts. -/
theorem C3_exhaustion (llm : Nat → Except Unit RawReply) (messages : PromptsVal)
    (hfail : ∀ k, llm k = .error ()) :
    (logger_chat_model_call llm messages).attempts = MAX_RETRIES ∧
    (logger_chat_model_call llm messages).outcome = .raised exhaust_message ∧
    (logger_chat_model_call llm messages).logged = [] ∧
    MAX_RETRIES = 15 ∧
    exhaust_message = "Failed to get a response after 15 attempts" := by
  have h : logger_chat_model_call llm messages =
      ⟨MAX_RETRIES,
        (List.range MAX_RETRIES).map (fun k => DEFAULT_RETRY_DELAY * 2 ^ k),
        .raised exhaust_message, []⟩ :=
    call_loop_all_fail llm messages hfail MAX_RETRIES 0 DEFAULT_RETRY_DELAY
  rw [h]
  exact ⟨rfl, rfl, rfl, rfl, by decide⟩

/-- Witness for C3 with the always-failing backend. -/
theorem C3_witness :
    (logger_chat_model_call (fun _ => .error ()) (.spv "q")).attempts = 15 ∧
    (logger_chat_model_call (fun _ => .error ()) (.spv "q")).outcome =
      .raised "Failed to get a response after 15 attempts" ∧
    (logger_chat_model_call (fun _ => .error ()) (.spv "q")).logged = [] := by
  obtain ⟨ha, hb, hc, _, he⟩ :=
    C3_exhaustion (fun _ => .error ()) (.spv "q") (fun _ => rfl)
  exact ⟨ha, he ▸ hb, hc⟩

/-- C5 (amended): on a successful call the invoker returns the backend's raw
reply object unchanged (`return reply`, `llm_manager.py:398`); the canonical
`ParsedReply` produced by the normalizer is computed and handed to the call
logger only, never returned to the caller. -/
theorem C5_returns_raw_reply (llm : Nat → Except Unit RawReply)
    (messages : PromptsVal) (lp : LoggedPrompts) (r : RawReply)
    (hok : llm 0 = .ok r) (hlp : normalizePrompts messages = .ok lp) :
    logger_chat_model_call llm messages =
      ⟨1, [], .returned (.raw r), [parse_llmresult r]⟩ := by
  have h := call_loop_success llm messages lp r hlp 0 MAX_RETRIES 0
    DEFAULT_RETRY_DELAY (by decide)
    (fun k hk => absurd hk (by omega))
    (by simpa using hok)
  simpa [logger_chat_model_call] using h

/-- Witness for C5 (amended) at a concrete backend and prompts value. -/
theorem C5_witness :
    logger_chat_model_call
        (fun _ => .ok (RawReply.obj "raw-obj" (some "hello") none none none))
        (.spv "q") =
      ⟨1, [], .returned (.raw (RawReply.obj "raw-obj" (some "hello") none none none)),
        [parse_llmresult (RawReply.obj "raw-obj" (some "hello") none none none)]⟩ :=
  C5_returns_raw_reply
    (fun _ => .ok (RawReply.obj "raw-obj" (some "hello") none none none))
    (.spv "q") (.text "q")
    (RawReply.obj "raw-obj" (some "hello") none none none) rfl rfl

/-- Counterexample to C5 as stated: at a concrete backend whose raw reply lacks
the `id` attribute, the invoker's returned value is the raw reply object, not
the normalizer's canonical record (which here has `id = "local_model_response"`,
a field the returned object does not even carry). -/
theorem C5_counterexample :
    (logger_chat_model_call
        (fun _ => .ok (RawReply.obj "raw-obj" (some "hello") none none none))
        (.spv "q")).outcome =
      .returned (.raw (RawReply.obj "raw-obj" (some "hello") none none none)) ∧
    (logger_chat_model_call
        (fun _ => .ok (RawReply.obj "raw-obj" (some "hello") none none none))
        (.spv "q")).outcome ≠
      .returned (.parsed (parse_llmresult
        (RawReply.obj "raw-obj" (some "hello") none none none))) ∧
    (parse_llmresult (RawReply.obj "raw-obj" (some "hello") none none none)).id =
      some "local_model_response" := by
  decide

/-- C7 (amended): the prompt-shape normalization before logging
(`llm_manager.py:271-298`) handles exactly two shapes — a `StringPromptValue`
becomes its text, and any object exposing a `messages` sequence whose records
all carry a `content` attribute becomes the `prompt_1, prompt_2, …` mapping
(e.g. two content records `"a"`, `"b"` give `prompt_1 = "a"`, `prompt_2 = "b"`)
— while every other shape raises: a plain list of role/content dicts, a plain
mapping, any object without `messages`, or a record lacking `content`.  There
is no degradation to a string representation. -/
theorem C7_prompt_shapes :
    (∀ t, normalizePrompts (.spv t) = .ok (.text t)) ∧
    (∀ ms l, prompt_mapping_from 1 ms = .ok l →
        normalizePrompts (.obj (some ms)) = .ok (.mapping l) ∧
        normalizePrompts (.pyDict (some ms)) = .ok (.mapping l)) ∧
    prompt_mapping_from 1 [⟨some "a"⟩, ⟨some "b"⟩] =
      .ok [("prompt_1", "a"), ("prompt_2", "b")] ∧
    (∀ ms, normalizePrompts (.pyList ms) = .error ()) ∧
    normalizePrompts (.pyDict none) = .error () ∧
    normalizePrompts (.obj none) = .error () ∧
    (∀ i ms, prompt_mapping_from i (⟨none⟩ :: ms) = .error ()) := by
  refine ⟨fun t => rfl, ?_, by decide, fun ms => rfl, rfl, rfl, fun i ms => rfl⟩
  intro ms l h
  constructor
  · simp [normalizePrompts, h]
  · simp [normalizePrompts, h]

/-- Witness for C7 (amended): a messages-bearing object converts; a
`StringPromptValue` passes through as text. -/
theorem C7_witness :
    normalizePrompts (.obj (some [⟨some "a"⟩])) = .ok (.mapping [("prompt_1", "a")]) ∧
    normalizePrompts (.spv "t") = .ok (.text "t") :=
  ⟨(C7_prompt_shapes.2.1 [⟨some "a"⟩] [("prompt_1", "a")] (by decide)).1,
    C7_prompt_shapes.1 "t"⟩

/-- Counterexample to C7 as stated: for the plain list
`[{content: "a"}, {content: "b"}]` the conversion raises (`.messages` on a list
raises `AttributeError`, and `log_request` re-raises it) instead of producing
the claimed mapping or a string representation. -/
theorem C7_counterexample :
    normalizePrompts (.pyList [⟨some "a"⟩, ⟨some "b"⟩]) = .error () ∧
    normalizePrompts (.pyList [⟨some "a"⟩, ⟨some "b"⟩]) ≠
      .ok (.mapping [("prompt_1", "a"), ("prompt_2", "b")]) ∧
    log_request (.pyList [⟨some "a"⟩, ⟨some "b"⟩])
        ⟨"hi", ⟨"phi3:latest", "", "stop", none⟩, some "id0", ⟨10, 5, 15⟩⟩ =
      .error () := by
  decide

/-- C8 (amended): the written `total_cost` is
`input_tokens * 0.00000015 + output_tokens * 0.0000006` with these two price
constants hard-coded identically for every backend (`llm_manager.py:327-331`,
`utils.py:52-58`) — there is no per-backend (in particular no zero) pricing;
for a reply with `input_tokens = 10`, `output_tokens = 5`, `total_tokens = 15`
the written entry has `total_tokens = 15` and `total_cost = 0.0000045 ≠ 0`,
whatever the backend. -/
theorem C8_cost_formula (messages : PromptsVal) (lp : LoggedPrompts)
    (p : ParsedReply) (hlp : normalizePrompts messages = .ok lp) :
    log_request messages p =
      .ok ⟨p.response_metadata.model_name, lp, p.content,
        p.usage_metadata.total_tokens, p.usage_metadata.input_tokens,
        p.usage_metadata.output_tokens,
        p.usage_metadata.input_tokens * prompt_price_per_token +
          p.usage_metadata.output_tokens * completion_price_per_token⟩ ∧
    (p.usage_metadata = ⟨10, 5, 15⟩ →
      log_request messages p =
        .ok ⟨p.response_metadata.model_name, lp, p.content, 15, 10, 5,
          45 / 10000000⟩ ∧ (45 / 10000000 : ℚ) ≠ 0) := by
  refine ⟨log_request_of_normalize messages lp p hlp, fun hu => ⟨?_, by norm_num⟩⟩
  rw [log_request_of_normalize messages lp p hlp, hu]
  norm_num [prompt_price_per_token, completion_price_per_token]

/-- Witness for C8 (amended) at a concrete prompts value and reply with 3 input
and 4 output tokens. -/
theorem C8_witness :
    log_request (.spv "x")
        ⟨"hi", ⟨"deepseek-r1", "", "stop", none⟩, some "id0", ⟨3, 4, 7⟩⟩ =
      .ok ⟨"deepseek-r1", .text "x", "hi", 7, 3, 4,
        3 * prompt_price_per_token + 4 * completion_price_per_token⟩ := by
  have h := C8_cost_formula (.spv "x") (.text "x")
    ⟨"hi", ⟨"deepseek-r1", "", "stop", none⟩, some "id0", ⟨3, 4, 7⟩⟩ rfl
  rw [h.1]
  norm_num

/-- Counterexample to C8 as stated: the entry logged for a reply with 10 input
and 5 output tokens under the local backend (model `deepseek-r1`, priced like
every other backend by the same hard-coded constants) has
`total_cost = 0.0000045`, not `0.0`. -/
theorem C8_counterexample :
    log_request (.spv "x")
        ⟨"hi", ⟨"deepseek-r1", "", "stop", none⟩, some "id0", ⟨10, 5, 15⟩⟩ =
      .ok ⟨"deepseek-r1", .text "x", "hi", 15, 10, 5, 45 / 10000000⟩ ∧
    (45 / 10000000 : ℚ) ≠ 0 := by
  constructor
  · rw [log_request_of_normalize (.spv "x") (.text "x") _ rfl]
    norm_num [prompt_price_per_token, completion_price_per_token]
  · norm_num

/-- C9: evaluation of the embedded code at the messages
`[{content: "a"}, {content: "b"}]`: because
`isinstance(self.llm.model, DeepseekModel.__class__)` tests against the
metaclass `type` and is `False` for the adapter's `DeepseekModel` instance,
the invoker's blank-line reformatting branch never runs; the structured list
reaches `DeepseekModel.invoke`, whose own flattening joins contents with a
single `"\n"` — so the text reaching the model is `"a\nb"`, not the `"a\n\nb"`
that the (dead) `"\n\n"` join at `llm_manager.py:382` would have produced. -/
theorem C9_flatten_newline_bug :
    prompt_reaching_model [⟨some "a"⟩, ⟨some "b"⟩] = "a\nb" ∧
    "a\nb" ≠ "a\n\nb" ∧
    deepseek_class_check = false ∧
    flatten_messages [⟨some "a"⟩, ⟨some "b"⟩] = "a\n\nb" := by
  decide

/-- C10: every successful reply of the deployed local backend
(`DeepseekModel.invoke`) is the compatibility message with
`usage_metadata = {input_tokens: 0, output_tokens: 0, total_tokens: 0}`; the
normalizer preserves the zeros, and any log entry written for such a reply has
all three token counts `0` and `total_cost = 0`, despite the nonzero hard-coded
per-token prices. -/
theorem C10_deepseek_zero_usage (ollama_model : String → Except Unit String)
    (prompt : Sum (List Msg) String) (response : String)
    (messages : PromptsVal) (lp : LoggedPrompts)
    (hresp : ollama_model (deepseek_flatten prompt) = .ok response)
    (hlp : normalizePrompts messages = .ok lp) :
    deepseek_invoke ollama_model prompt = .ok (deepseek_message response) ∧
    deepseek_message response =
      RawReply.obj response (some response)
        (some ⟨some "deepseek-r1", none, some "stop", none, false⟩)
        (some (some "deepseek_response"))
        (some ⟨some 0, some 0, some 0, false⟩) ∧
    (parse_llmresult (deepseek_message response)).usage_metadata = ⟨0, 0, 0⟩ ∧
    log_request messages (parse_llmresult (deepseek_message response)) =
      .ok ⟨"deepseek-r1", lp, response, 0, 0, 0, 0⟩ := by
  refine ⟨?_, rfl, rfl, ?_⟩
  · simp [deepseek_invoke, hresp]
  · rw [log_request_of_normalize messages lp _ hlp]
    norm_num [parse_llmresult, deepseek_message, RespMetaDict.isTruthy,
      UsageDict.isTruthy]

/-- Witness for C10 at a concrete model, prompt and prompts value. -/
theorem C10_witness :
    deepseek_invoke (fun _ => .ok "resp") (Sum.inr "p") =
      .ok (deepseek_message "resp") ∧
    (parse_llmresult (deepseek_message "resp")).usage_metadata = ⟨0, 0, 0⟩ ∧
    log_request (.spv "x") (parse_llmresult (deepseek_message "resp")) =
      .ok ⟨"deepseek-r1", .text "x", "resp", 0, 0, 0, 0⟩ := by
  have h := C10_deepseek_zero_usage (fun _ => .ok "resp") (Sum.inr "p") "resp"
    (.spv "x") (.text "x") rfl rfl
  exact ⟨h.1, h.2.2.1, h.2.2.2⟩

/-- C4 (amended): fallback mechanics of the builder-variant invoker
(`utils.py:85-177`).  (1) With a primary that always raises a 401 and a working
fallback, the invoker constructs the fallback exactly once on the first
authentication error, switches to it, and on the very next attempt — attempt 2
of the shared counter, with no reset, no sleep, and well below the ceiling of
15 — returns the compatibility message built from the fallback's text response
(`fallback_message`), without normalizing it through `parse_llmresult` and
without logging it.  (2) If fallback construction fails, the terminal
`ctor_fail_message` error is raised immediately on attempt 1 and is not
retried.  (3) Laziness: a call that succeeds on the primary never invokes the
fallback constructor.  (4) Permanence: if the fallback's first use raises a
transient error, the next attempt still goes to the fallback (after one sleep
of the shared delay). -/
theorem C4_fallback_mechanics :
    (∀ (fallback : Nat → String → Except UtilsError String) (messages : UtilsMsgs)
        (s : String), fallback 1 messages.flatten = .ok s →
        utils_call (fun _ => .error (.httpStatus 401)) true fallback messages =
          ⟨2, [], .returned (.raw (fallback_message s)), 1, []⟩ ∧
        2 < utils_max_retries) ∧
    (∀ (fallback : Nat → String → Except UtilsError String) (messages : UtilsMsgs),
        utils_call (fun _ => .error (.httpStatus 401)) false fallback messages =
          ⟨1, [], .raised ctor_fail_message, 1, []⟩) ∧
    (∀ (primary : Nat → Except UtilsError RawReply)
        (fallback : Nat → String → Except UtilsError String) (messages : UtilsMsgs)
        (r : RawReply) (p : ParsedReply) (e : LogEntry),
        primary 0 = .ok r → utils_parse_llmresult r = .ok p →
        log_request messages.toPrompts p = .ok e →
        utils_call primary true fallback messages =
          ⟨1, [], .returned (.raw r), 0, [p]⟩) ∧
    (∀ (fallback : Nat → String → Except UtilsError String) (messages : UtilsMsgs)
        (s : String),
        fallback 1 messages.flatten = .error .otherExc →
        fallback 2 messages.flatten = .ok s →
        utils_call (fun _ => .error (.httpStatus 401)) true fallback messages =
          ⟨3, [utils_initial_delay], .returned (.raw (fallback_message s)), 1, []⟩) := by
  refine ⟨?_, ?_, ?_, ?_⟩
  · intro fallback messages s hfb
    constructor
    · simp [utils_call, utils_call_loop, hfb, utils_max_retries, utils_initial_delay]
    · decide
  · intro fallback messages
    simp [utils_call, utils_call_loop, utils_max_retries, utils_initial_delay]
  · intro primary fallback messages r p e hr hp hl
    simp [utils_call, utils_call_loop, utils_max_retries, utils_initial_delay,
      hr, hp, hl]
  · intro fallback messages s h1 h2
    simp [utils_call, utils_call_loop, utils_max_retries, utils_initial_delay, h1, h2]

/-- Witness for C4 (amended): concrete instances of the fallback-success and
the construction-failure scenarios. -/
theorem C4_witness :
    utils_call (fun _ => .error (.httpStatus 401)) true (fun _ _ => .ok "ok")
        (.list [⟨some "hi"⟩]) =
      ⟨2, [], .returned (.raw (fallback_message "ok")), 1, []⟩ ∧
    utils_call (fun _ => .error (.httpStatus 401)) false (fun _ _ => .ok "ok")
        (.list [⟨some "hi"⟩]) =
      ⟨1, [], .raised ctor_fail_message, 1, []⟩ := by
  refine ⟨?_, C4_fallback_mechanics.2.1 (fun _ _ => .ok "ok") (.list [⟨some "hi"⟩])⟩
  exact (C4_fallback_mechanics.1 (fun _ _ => .ok "ok") (.list [⟨some "hi"⟩]) "ok" rfl).1

/-- Counterexample to C4 as stated: in the always-401 scenario the value the
invoker returns is the raw compatibility message — whose metadata dict lacks
the `system_fingerprint` and `logprobs` keys — not the fallback reply as
normalized by the response normalizer (shown third), and nothing is handed to
the call logger on the fallback path. -/
theorem C4_counterexample :
    (utils_call (fun _ => .error (.httpStatus 401)) true (fun _ _ => .ok "hi")
        (.list [⟨some "q"⟩])).outcome =
      .returned (.raw (fallback_message "hi")) ∧
    (utils_call (fun _ => .error (.httpStatus 401)) true (fun _ _ => .ok "hi")
        (.list [⟨some "q"⟩])).outcome ≠
      .returned (.parsed
        ⟨"hi", ⟨"deepseek-r1", "", "stop", none⟩, some "fallback_response",
          ⟨0, 0, 0⟩⟩) ∧
    utils_parse_llmresult (fallback_message "hi") =
      .ok ⟨"hi", ⟨"deepseek-r1", "", "stop", none⟩, some "fallback_response",
        ⟨0, 0, 0⟩⟩ ∧
    (utils_call (fun _ => .error (.httpStatus 401)) true (fun _ _ => .ok "hi")
        (.list [⟨some "q"⟩])).logged = [] := by
  decide
